import Mathlib

/-!
# Admin bootstrap and admin user management (homebox)

A shallow embedding of

* `backend/app/api/admin_setup.go`: `setupAdminUser`, `createDefaults`,
  `defaultLabels`, `defaultLocations`;
* `backend/app/api/handlers/v1/v1_ctrl_user.go`: `HandleAdminCreateUser`,
  `HandleAdminUpdateUser`, `HandleAdminDeleteUser`.

The persistence layer (`repo.AllRepos`) is an interface here: every handler
is written over an arbitrary store type `σ` and an arbitrary implementation
of the repository methods, each of which maps a store state to a result and
a new store state. Every repository call a handler makes is appended to a
ghost log (`World.calls`), so that "the store is never called" is a
statement about that log. `MemStore` is a reference implementation of the
interface, used where a claim is about the contents of the store.

Logging (`zerolog`) has no effect on control flow and is left out.
-/

namespace Homebox

/-! ## Values of the external packages -/

/-- A `uuid.UUID`: a 128-bit identifier, identified with a natural number. -/
abbrev UUID := Nat

/-- The zero identifier, `uuid.Nil`. -/
def uuid.Nil : UUID := 0

/-- A non-nil Go `error` value. `notFound` stands for the store's not-found
error, `other` for any other error, with its message. A Go `error` is an
`Option GoError`, `none` being `nil`. -/
inductive GoError where
  | notFound : GoError
  | other (msg : String) : GoError
deriving DecidableEq, Repr

/-- The function `strings.ToLower`, on the ASCII letters. No other letter
has a lower case among `t`, `r`, `u`, `e`, so the comparison of the result
with "true" made by `setupAdminUser` is the one Go makes. -/
def strings.ToLower (s : String) : String := ⟨s.data.map Char.toLower⟩

abbrev http.StatusOK : Nat := 200
abbrev http.StatusCreated : Nat := 201
abbrev http.StatusNoContent : Nat := 204
abbrev http.StatusBadRequest : Nat := 400
abbrev http.StatusForbidden : Nat := 403
abbrev http.StatusInternalServerError : Nat := 500

/-! ## Records of package `repo` (fields as used by the handlers) -/

structure UserOut where
  ID : UUID
  Name : String
  Email : String
  IsSuperuser : Bool
  GroupID : UUID
  PasswordHash : String
  IsOwner : Bool
deriving DecidableEq, Repr

structure UserCreate where
  Name : String
  Email : String
  Password : String
  IsSuperuser : Bool
  GroupID : UUID
  IsOwner : Bool
deriving DecidableEq, Repr

structure UserUpdate where
  Name : String
  Email : String
deriving DecidableEq, Repr

structure Group where
  ID : UUID
  Name : String
deriving DecidableEq, Repr

structure LabelCreate where
  Name : String
  Color : String
deriving DecidableEq, Repr

structure LocationCreate where
  Name : String
deriving DecidableEq, Repr

structure LabelOut where
  ID : UUID
  GroupID : UUID
  Name : String
  Color : String
deriving DecidableEq, Repr

structure LocationOut where
  ID : UUID
  GroupID : UUID
  Name : String
deriving DecidableEq, Repr

/-! ## The repository interface -/

/-- The methods of `repos.Users` the admin code calls. A method maps the
store state to its Go result and the next store state. -/
structure UserRepository (σ : Type) where
  GetOneEmail : σ → String → Except GoError UserOut × σ
  GetOneID : σ → UUID → Except GoError UserOut × σ
  Create : σ → UserCreate → Except GoError UserOut × σ
  Update : σ → UUID → UserUpdate → Option GoError × σ
  SetSuperuser : σ → UUID → Bool → Option GoError × σ
  Delete : σ → UUID → Option GoError × σ

structure GroupRepository (σ : Type) where
  GroupCreate : σ → String → Except GoError Group × σ

structure LabelRepository (σ : Type) where
  Create : σ → UUID → LabelCreate → Except GoError LabelOut × σ

structure LocationRepository (σ : Type) where
  Create : σ → UUID → LocationCreate → Except GoError LocationOut × σ

structure AllRepos (σ : Type) where
  Users : UserRepository σ
  Groups : GroupRepository σ
  Labels : LabelRepository σ
  Locations : LocationRepository σ

/-- One repository call, with its arguments. -/
inductive Call where
  | UsersGetOneEmail (email : String)
  | UsersGetOneID (id : UUID)
  | UsersCreate (data : UserCreate)
  | UsersUpdate (id : UUID) (data : UserUpdate)
  | UsersSetSuperuser (id : UUID) (v : Bool)
  | UsersDelete (id : UUID)
  | GroupsGroupCreate (name : String)
  | LabelsCreate (groupID : UUID) (data : LabelCreate)
  | LocationsCreate (groupID : UUID) (data : LocationCreate)
deriving DecidableEq, Repr

/-- The store together with the log of the repository calls made so far. -/
structure World (σ : Type) where
  store : σ
  calls : List Call

/-- Run one repository method on the store and log the call. -/
def invoke {σ α : Type} (c : Call) (op : σ → α × σ) (w : World σ) : α × World σ :=
  ((op w.store).1, ⟨(op w.store).2, w.calls ++ [c]⟩)

namespace Logged

variable {σ : Type}

def UsersGetOneEmail (R : AllRepos σ) (w : World σ) (email : String) :
    Except GoError UserOut × World σ :=
  invoke (.UsersGetOneEmail email) (fun s => R.Users.GetOneEmail s email) w

def UsersGetOneID (R : AllRepos σ) (w : World σ) (id : UUID) :
    Except GoError UserOut × World σ :=
  invoke (.UsersGetOneID id) (fun s => R.Users.GetOneID s id) w

def UsersCreate (R : AllRepos σ) (w : World σ) (data : UserCreate) :
    Except GoError UserOut × World σ :=
  invoke (.UsersCreate data) (fun s => R.Users.Create s data) w

def UsersUpdate (R : AllRepos σ) (w : World σ) (id : UUID) (data : UserUpdate) :
    Option GoError × World σ :=
  invoke (.UsersUpdate id data) (fun s => R.Users.Update s id data) w

def UsersSetSuperuser (R : AllRepos σ) (w : World σ) (id : UUID) (v : Bool) :
    Option GoError × World σ :=
  invoke (.UsersSetSuperuser id v) (fun s => R.Users.SetSuperuser s id v) w

def UsersDelete (R : AllRepos σ) (w : World σ) (id : UUID) :
    Option GoError × World σ :=
  invoke (.UsersDelete id) (fun s => R.Users.Delete s id) w

def GroupsGroupCreate (R : AllRepos σ) (w : World σ) (name : String) :
    Except GoError Group × World σ :=
  invoke (.GroupsGroupCreate name) (fun s => R.Groups.GroupCreate s name) w

def LabelsCreate (R : AllRepos σ) (w : World σ) (groupID : UUID) (data : LabelCreate) :
    Except GoError LabelOut × World σ :=
  invoke (.LabelsCreate groupID data) (fun s => R.Labels.Create s groupID data) w

def LocationsCreate (R : AllRepos σ) (w : World σ) (groupID : UUID) (data : LocationCreate) :
    Except GoError LocationOut × World σ :=
  invoke (.LocationsCreate groupID data) (fun s => R.Locations.Create s groupID data) w

end Logged

/-! ## `admin_setup.go` -/

/-- The list `defaultLabels()`. -/
def defaultLabels : List LabelCreate :=
  [ { Name := "Electronics", Color := "#FF5733" },
    { Name := "Books", Color := "#33FF57" },
    { Name := "Clothing", Color := "#3357FF" },
    { Name := "Tools", Color := "#F3FF33" },
    { Name := "Furniture", Color := "#33FFF3" } ]

/-- The list `defaultLocations()`. -/
def defaultLocations : List LocationCreate :=
  [ { Name := "Home" },
    { Name := "Garage" },
    { Name := "Storage" },
    { Name := "Office" } ]

/-- The function `createDefaults(ctx, repos, groupID)`: one `Labels.Create`
per default label, then one `Locations.Create` per default location. The
result and the error of each call are dropped (the error is only logged). -/
def createDefaults {σ : Type} (R : AllRepos σ) (w : World σ) (groupID : UUID) : World σ :=
  let w := defaultLabels.foldl (fun w label => (Logged.LabelsCreate R w groupID label).2) w
  defaultLocations.foldl (fun w location => (Logged.LocationsCreate R w groupID location).2) w

/-- The method `(a *app) setupAdminUser() error`. `env` is `os.Getenv`,
`hashPassword` is `hasher.HashPassword`, which returns a string and an
error; the result is the returned `error` (`none` is `nil`). -/
def setupAdminUser {σ : Type} (R : AllRepos σ) (hashPassword : String → String × Option GoError)
    (env : String → String) (w : World σ) : Option GoError × World σ :=
  let shouldCreateAdmin := env "HBOX_ADMIN_CREATE"
  if strings.ToLower shouldCreateAdmin ≠ "true" then (none, w)
  else
    let adminName := env "HBOX_ADMIN_NAME"
    let adminEmail := env "HBOX_ADMIN_EMAIL"
    let adminPassword := env "HBOX_ADMIN_PASSWORD"
    if adminName = "" ∨ adminEmail = "" ∨ adminPassword = "" then (none, w)
    else
      match Logged.UsersGetOneEmail R w adminEmail with
      | (.ok existingUser, w) =>
        if !existingUser.IsSuperuser then
          let updateData : UserUpdate := { Name := adminName, Email := adminEmail }
          match Logged.UsersUpdate R w existingUser.ID updateData with
          | (some err, w) => (some err, w)
          | (none, w) =>
            match Logged.UsersSetSuperuser R w existingUser.ID true with
            | (some err, w) => (some err, w)
            | (none, w) => (none, w)
        else (none, w)
      | (.error _, w) =>
        match Logged.GroupsGroupCreate R w "Admin Group" with
        | (.error err, w) => (some err, w)
        | (.ok group, w) =>
          let hashedPassword := (hashPassword adminPassword).1
          let userCreate : UserCreate :=
            { Name := adminName
              Email := adminEmail
              Password := hashedPassword
              IsSuperuser := true
              GroupID := group.ID
              IsOwner := true }
          match Logged.UsersCreate R w userCreate with
          | (.error err, w) => (some err, w)
          | (.ok user, w) => (none, createDefaults R w user.GroupID)

/-! ## `v1_ctrl_user.go` -/

/-- The value `validate.NewRequestError(err, status)` a handler returns. -/
structure RequestError where
  err : Option GoError
  status : Nat
deriving DecidableEq, Repr

/-- The body given to `server.JSON`: `nil`, or `Wrap(user)`. -/
inductive Body where
  | null : Body
  | item (user : UserOut) : Body
deriving DecidableEq, Repr

/-- The response `server.JSON(w, status, body)` writes. -/
structure Response where
  status : Nat
  body : Body
deriving DecidableEq, Repr

/-- What a handler does with a request: it returns a request error, or it
writes a response and returns `nil`. -/
abbrev HandlerResult := Except RequestError Response

structure AdminUserCreate where
  Name : String
  Email : String
  Password : String
  IsSuperuser : Bool
  GroupID : UUID
deriving DecidableEq, Repr

structure AdminUserUpdate where
  Name : String
  Email : String
  IsSuperuser : Bool
deriving DecidableEq, Repr

/-- What a handler reads from `*http.Request`: the URL parameter
`chi.URLParam(r, "id")`, the outcome of `server.Decode(r, &payload)`, and
the authenticated user `services.UseUserCtx(r.Context())`, which the
middleware of the admin routes has put there. -/
structure Request (β : Type) where
  urlParamID : String
  decoded : Except GoError β
  actor : UserOut

/-- The fields of `V1Controller` the admin handlers use;
`svcUserHashPassword` is `ctrl.svc.User.HashPassword`. -/
structure V1Controller (σ : Type) where
  repo : AllRepos σ
  svcUserHashPassword : String → String × Option GoError
  isDemo : Bool

/-- The handler `HandleAdminCreateUser`. -/
def HandleAdminCreateUser {σ : Type} (ctrl : V1Controller σ) (r : Request AdminUserCreate)
    (w : World σ) : HandlerResult × World σ :=
  match r.decoded with
  | .error err => (.error ⟨some err, http.StatusBadRequest⟩, w)
  | .ok userData =>
    let actor := r.actor
    let userData : AdminUserCreate :=
      if userData.GroupID = uuid.Nil then { userData with GroupID := actor.GroupID } else userData
    match ctrl.svcUserHashPassword userData.Password with
    | (_, some err) => (.error ⟨some err, http.StatusInternalServerError⟩, w)
    | (hashedPassword, none) =>
      match Logged.UsersCreate ctrl.repo w
          { Name := userData.Name
            Email := userData.Email
            Password := hashedPassword
            IsSuperuser := userData.IsSuperuser
            GroupID := userData.GroupID
            IsOwner := false } with
      | (.error err, w) => (.error ⟨some err, http.StatusInternalServerError⟩, w)
      | (.ok user, w) => (.ok ⟨http.StatusCreated, .item user⟩, w)

/-- The handler `HandleAdminUpdateUser`; `uuidParse` is `uuid.Parse`. -/
def HandleAdminUpdateUser {σ : Type} (ctrl : V1Controller σ)
    (uuidParse : String → Except GoError UUID) (r : Request AdminUserUpdate)
    (w : World σ) : HandlerResult × World σ :=
  let userID := r.urlParamID
  if userID = "" then
    (.error ⟨some (.other "user id is required"), http.StatusBadRequest⟩, w)
  else
    match uuidParse userID with
    | .error err => (.error ⟨some err, http.StatusBadRequest⟩, w)
    | .ok id =>
      match r.decoded with
      | .error err => (.error ⟨some err, http.StatusBadRequest⟩, w)
      | .ok adminUpdateData =>
        let updateData : UserUpdate :=
          { Name := adminUpdateData.Name, Email := adminUpdateData.Email }
        match Logged.UsersUpdate ctrl.repo w id updateData with
        | (some err, w) => (.error ⟨some err, http.StatusInternalServerError⟩, w)
        | (none, w) =>
          match Logged.UsersSetSuperuser ctrl.repo w id adminUpdateData.IsSuperuser with
          | (some err, w) => (.error ⟨some err, http.StatusInternalServerError⟩, w)
          | (none, w) =>
            match Logged.UsersGetOneID ctrl.repo w id with
            | (.error err, w) => (.error ⟨some err, http.StatusInternalServerError⟩, w)
            | (.ok updatedUser, w) => (.ok ⟨http.StatusOK, .item updatedUser⟩, w)

/-- The handler `HandleAdminDeleteUser`; `uuidParse` is `uuid.Parse`. -/
def HandleAdminDeleteUser {σ : Type} (ctrl : V1Controller σ)
    (uuidParse : String → Except GoError UUID) (r : Request Unit)
    (w : World σ) : HandlerResult × World σ :=
  if ctrl.isDemo then (.error ⟨none, http.StatusForbidden⟩, w)
  else
    let userID := r.urlParamID
    if userID = "" then
      (.error ⟨some (.other "user id is required"), http.StatusBadRequest⟩, w)
    else
      match uuidParse userID with
      | .error err => (.error ⟨some err, http.StatusBadRequest⟩, w)
      | .ok id =>
        let actor := r.actor
        if actor.ID = id then
          (.error ⟨some (.other "cannot delete yourself through admin API"),
            http.StatusForbidden⟩, w)
        else
          match Logged.UsersDelete ctrl.repo w id with
          | (some err, w) => (.error ⟨some err, http.StatusInternalServerError⟩, w)
          | (none, w) => (.ok ⟨http.StatusNoContent, .null⟩, w)

/-! ## A reference store -/

/-- Modelled from the spec: the Credential Store (package `repo`, whose
implementation is not part of the sources read here). It keeps users,
groups, labels and locations, enforces uniqueness of email (compared
case-sensitively) and referential integrity of group membership, and hands
out fresh identifiers. `faults` scripts persistence failures: each call
consumes the head of the list and fails with a store error, changing
nothing else, when it is `true`; with an empty script every call that the
constraints allow succeeds. -/
structure MemStore where
  users : List UserOut
  groups : List Group
  labels : List LabelOut
  locations : List LocationOut
  nextID : Nat
  faults : List Bool
deriving DecidableEq, Repr

namespace MemStore

/-- The error of a scripted persistence failure. -/
def failure : GoError := .other "store failure"

/-- Consume one entry of the fault script. -/
def tick (s : MemStore) : Bool × MemStore :=
  match s.faults with
  | [] => (false, s)
  | f :: rest => (f, { s with faults := rest })

/-- Rewrite every user record with `f`. -/
def mapUsers (s : MemStore) (f : UserOut → UserOut) : MemStore :=
  { s with users := s.users.map f }

/-- The record `u` after `Update(id, d)`: name and email replaced when the
id is `id`. -/
def renamed (id : UUID) (d : UserUpdate) (u : UserOut) : UserOut :=
  if u.ID = id then { u with Name := d.Name, Email := d.Email } else u

/-- The record `u` after `SetSuperuser(id, v)`: the flag replaced when the
id is `id`. -/
def flagged (id : UUID) (v : Bool) (u : UserOut) : UserOut :=
  if u.ID = id then { u with IsSuperuser := v } else u

def getOneEmail (s : MemStore) (email : String) : Except GoError UserOut × MemStore :=
  if (tick s).1 then (.error failure, (tick s).2)
  else
    match (tick s).2.users.find? (fun u => u.Email = email) with
    | some u => (.ok u, (tick s).2)
    | none => (.error .notFound, (tick s).2)

def getOneID (s : MemStore) (id : UUID) : Except GoError UserOut × MemStore :=
  if (tick s).1 then (.error failure, (tick s).2)
  else
    match (tick s).2.users.find? (fun u => u.ID = id) with
    | some u => (.ok u, (tick s).2)
    | none => (.error .notFound, (tick s).2)

def userCreate (s : MemStore) (c : UserCreate) : Except GoError UserOut × MemStore :=
  if (tick s).1 then (.error failure, (tick s).2)
  else if (tick s).2.users.any (fun u => u.Email = c.Email) then
    (.error (.other "constraint failed: email is not unique"), (tick s).2)
  else if !(tick s).2.groups.any (fun g => g.ID = c.GroupID) then
    (.error (.other "constraint failed: no such group"), (tick s).2)
  else
    let u : UserOut :=
      { ID := (tick s).2.nextID + 1
        Name := c.Name
        Email := c.Email
        IsSuperuser := c.IsSuperuser
        GroupID := c.GroupID
        PasswordHash := c.Password
        IsOwner := c.IsOwner }
    (.ok u, { (tick s).2 with users := (tick s).2.users ++ [u], nextID := (tick s).2.nextID + 1 })

def userUpdate (s : MemStore) (id : UUID) (d : UserUpdate) : Option GoError × MemStore :=
  if (tick s).1 then (some failure, (tick s).2)
  else if !(tick s).2.users.any (fun u => u.ID = id) then (some .notFound, (tick s).2)
  else if (tick s).2.users.any (fun u => u.ID ≠ id ∧ u.Email = d.Email) then
    (some (.other "constraint failed: email is not unique"), (tick s).2)
  else (none, (tick s).2.mapUsers (renamed id d))

def setSuperuser (s : MemStore) (id : UUID) (v : Bool) : Option GoError × MemStore :=
  if (tick s).1 then (some failure, (tick s).2)
  else if !(tick s).2.users.any (fun u => u.ID = id) then (some .notFound, (tick s).2)
  else (none, (tick s).2.mapUsers (flagged id v))

def userDelete (s : MemStore) (id : UUID) : Option GoError × MemStore :=
  if (tick s).1 then (some failure, (tick s).2)
  else if !(tick s).2.users.any (fun u => u.ID = id) then (some .notFound, (tick s).2)
  else (none, { (tick s).2 with users := (tick s).2.users.filter (fun u => u.ID ≠ id) })

def groupCreate (s : MemStore) (name : String) : Except GoError Group × MemStore :=
  if (tick s).1 then (.error failure, (tick s).2)
  else
    let g : Group := { ID := (tick s).2.nextID + 1, Name := name }
    (.ok g, { (tick s).2 with
      groups := (tick s).2.groups ++ [g], nextID := (tick s).2.nextID + 1 })

def labelCreate (s : MemStore) (groupID : UUID) (d : LabelCreate) :
    Except GoError LabelOut × MemStore :=
  if (tick s).1 then (.error failure, (tick s).2)
  else
    let l : LabelOut :=
      { ID := (tick s).2.nextID + 1, GroupID := groupID, Name := d.Name, Color := d.Color }
    (.ok l, { (tick s).2 with
      labels := (tick s).2.labels ++ [l], nextID := (tick s).2.nextID + 1 })

def locationCreate (s : MemStore) (groupID : UUID) (d : LocationCreate) :
    Except GoError LocationOut × MemStore :=
  if (tick s).1 then (.error failure, (tick s).2)
  else
    let l : LocationOut := { ID := (tick s).2.nextID + 1, GroupID := groupID, Name := d.Name }
    (.ok l, { (tick s).2 with
      locations := (tick s).2.locations ++ [l], nextID := (tick s).2.nextID + 1 })

/-- The reference store as an implementation of the repository interface. -/
def repos : AllRepos MemStore where
  Users :=
    { GetOneEmail := getOneEmail
      GetOneID := getOneID
      Create := userCreate
      Update := userUpdate
      SetSuperuser := setSuperuser
      Delete := userDelete }
  Groups := { GroupCreate := groupCreate }
  Labels := { Create := labelCreate }
  Locations := { Create := locationCreate }

/-- The store holding nothing. -/
def empty : MemStore :=
  { users := [], groups := [], labels := [], locations := [], nextID := 0, faults := [] }

end MemStore

/-! ## Concrete inputs -/

namespace Fixture

/-- A stand-in for `uuid.Parse` that knows two identifiers. -/
def uuidParse (s : String) : Except GoError UUID :=
  if s = "00000000-0000-0000-0000-000000000001" then .ok 1
  else if s = "00000000-0000-0000-0000-000000000002" then .ok 2
  else .error (.other "invalid UUID")

/-- A hasher that succeeds. -/
def hashOK (p : String) : String × Option GoError := (⟨'#' :: p.data⟩, none)

/-- A hasher that fails on every password. -/
def hashFails (_ : String) : String × Option GoError := ("", some (.other "hashing failed"))

/-- The environment of the bootstrap scenario of the spec. -/
def env (k : String) : String :=
  if k = "HBOX_ADMIN_CREATE" then "true"
  else if k = "HBOX_ADMIN_NAME" then "Root"
  else if k = "HBOX_ADMIN_EMAIL" then "root@x.test"
  else if k = "HBOX_ADMIN_PASSWORD" then "s3cret!"
  else ""

def admin : UserOut :=
  { ID := 1, Name := "Admin", Email := "admin@x.test", IsSuperuser := true, GroupID := 10,
    PasswordHash := "#pw", IsOwner := true }

def member : UserOut :=
  { ID := 2, Name := "Member", Email := "root@x.test", IsSuperuser := false, GroupID := 10,
    PasswordHash := "#pw2", IsOwner := false }

/-- A store with one group and two users, `admin` and `member`. -/
def store : MemStore :=
  { users := [admin, member], groups := [{ ID := 10, Name := "Home" }], labels := [],
    locations := [], nextID := 10, faults := [] }

def ctrl : V1Controller MemStore :=
  { repo := MemStore.repos, svcUserHashPassword := hashOK, isDemo := false }

end Fixture

/-! ## Facts about the reference store -/

namespace MemStore

theorem tick_of_faults_nil (s : MemStore) (h : s.faults = []) : tick s = (false, s) := by
  simp [tick, h]

@[simp] theorem tick_users (s : MemStore) : (tick s).2.users = s.users := by
  unfold tick; split <;> rfl

@[simp] theorem tick_groups (s : MemStore) : (tick s).2.groups = s.groups := by
  unfold tick; split <;> rfl

@[simp] theorem tick_labels (s : MemStore) : (tick s).2.labels = s.labels := by
  unfold tick; split <;> rfl

@[simp] theorem tick_locations (s : MemStore) : (tick s).2.locations = s.locations := by
  unfold tick; split <;> rfl

@[simp] theorem renamed_ID (id : UUID) (d : UserUpdate) (u : UserOut) :
    (renamed id d u).ID = u.ID := by
  unfold renamed; split <;> rfl

@[simp] theorem flagged_ID (id : UUID) (v : Bool) (u : UserOut) :
    (flagged id v u).ID = u.ID := by
  unfold flagged; split <;> rfl

@[simp] theorem mapUsers_users (s : MemStore) (f : UserOut → UserOut) :
    (s.mapUsers f).users = s.users.map f := rfl

@[simp] theorem mapUsers_faults (s : MemStore) (f : UserOut → UserOut) :
    (s.mapUsers f).faults = s.faults := rfl

@[simp] theorem mapUsers_groups (s : MemStore) (f : UserOut → UserOut) :
    (s.mapUsers f).groups = s.groups := rfl

/-- Rewriting the records with a function that keeps ids keeps the ids the
store holds. -/
theorem mapUsers_holds (s : MemStore) (f : UserOut → UserOut) (id : UUID)
    (hf : ∀ u, (f u).ID = u.ID) (hin : ∃ u ∈ s.users, u.ID = id) :
    ∃ u ∈ (s.mapUsers f).users, u.ID = id := by
  obtain ⟨u, hu, hid⟩ := hin
  exact ⟨f u, List.mem_map.mpr ⟨u, hu, rfl⟩, (hf u).trans hid⟩

/-- A failed `Update` changes no user record. -/
theorem userUpdate_failure_users (s : MemStore) (id : UUID) (d : UserUpdate)
    (h : (userUpdate s id d).1 ≠ none) : (userUpdate s id d).2.users = s.users := by
  unfold userUpdate at h ⊢
  split_ifs at h ⊢ <;> simp_all

/-- With no scripted fault, `Update` on an id the store holds, to an email
no other user has, rewrites name and email of the users with that id. -/
theorem userUpdate_ok (s : MemStore) (id : UUID) (d : UserUpdate) (hf : s.faults = [])
    (hin : ∃ u ∈ s.users, u.ID = id)
    (huniq : ∀ u ∈ s.users, u.ID ≠ id → u.Email ≠ d.Email) :
    userUpdate s id d = (none, s.mapUsers (renamed id d)) := by
  have h1 : s.users.any (fun u => decide (u.ID = id)) = true := by
    simpa [List.any_eq_true] using hin
  have h2 : s.users.any (fun u => decide (u.ID ≠ id ∧ u.Email = d.Email)) = false := by
    simpa [List.any_eq_false] using huniq
  simp only [userUpdate, tick_of_faults_nil s hf, h1, h2]
  simp

/-- With no scripted fault, `SetSuperuser` on an id the store holds sets the
flag of the users with that id. -/
theorem setSuperuser_ok (s : MemStore) (id : UUID) (v : Bool) (hf : s.faults = [])
    (hin : ∃ u ∈ s.users, u.ID = id) :
    setSuperuser s id v = (none, s.mapUsers (flagged id v)) := by
  have h1 : s.users.any (fun u => decide (u.ID = id)) = true := by
    simpa [List.any_eq_true] using hin
  simp only [setSuperuser, tick_of_faults_nil s hf, h1]
  simp

/-- With no scripted fault, `GetOneID` on an id the store holds returns a
user of the store with that id and leaves the store as it is. -/
theorem getOneID_ok (s : MemStore) (id : UUID) (hf : s.faults = [])
    (hin : ∃ u ∈ s.users, u.ID = id) :
    ∃ u ∈ s.users, u.ID = id ∧ getOneID s id = (.ok u, s) := by
  obtain ⟨u0, hu0, hid0⟩ := hin
  cases hfind : s.users.find? (fun u => decide (u.ID = id)) with
  | none =>
    have := List.find?_eq_none.mp hfind u0 hu0
    simp [hid0] at this
  | some u =>
    refine ⟨u, List.mem_of_find?_eq_some hfind, ?_, ?_⟩
    · simpa using List.find?_some hfind
    · simp [getOneID, tick_of_faults_nil s hf, hfind]

/-- With no scripted fault, a lookup of an email no user has is not-found. -/
theorem getOneEmail_absent (s : MemStore) (email : String) (hf : s.faults = [])
    (hno : ∀ u ∈ s.users, u.Email ≠ email) :
    getOneEmail s email = (.error .notFound, s) := by
  have h : s.users.find? (fun u => decide (u.Email = email)) = none := by
    simpa [List.find?_eq_none] using hno
  simp [getOneEmail, tick_of_faults_nil s hf, h]

/-- With no scripted fault, a lookup of an email some user has returns the
first user with that email and leaves the store as it is. -/
theorem getOneEmail_present (s : MemStore) (email : String) (hf : s.faults = [])
    (hin : ∃ u ∈ s.users, u.Email = email) :
    ∃ u ∈ s.users, u.Email = email ∧ getOneEmail s email = (.ok u, s) := by
  obtain ⟨u0, hu0, he0⟩ := hin
  cases hfind : s.users.find? (fun u => decide (u.Email = email)) with
  | none =>
    have := List.find?_eq_none.mp hfind u0 hu0
    simp [he0] at this
  | some u =>
    refine ⟨u, List.mem_of_find?_eq_some hfind, ?_, ?_⟩
    · simpa using List.find?_some hfind
    · simp [getOneEmail, tick_of_faults_nil s hf, hfind]

/-- With no scripted fault, `GroupCreate` appends a group with a fresh id. -/
theorem groupCreate_ok (s : MemStore) (name : String) (hf : s.faults = []) :
    groupCreate s name =
      (.ok ⟨s.nextID + 1, name⟩,
        { s with groups := s.groups ++ [⟨s.nextID + 1, name⟩], nextID := s.nextID + 1 }) := by
  simp [groupCreate, tick_of_faults_nil s hf]

/-- With no scripted fault, `Create` of a user with an email no user has, in
a group the store holds, appends the user with a fresh id. -/
theorem userCreate_ok (s : MemStore) (c : UserCreate) (hf : s.faults = [])
    (hno : ∀ u ∈ s.users, u.Email ≠ c.Email) (hg : ∃ g ∈ s.groups, g.ID = c.GroupID) :
    userCreate s c =
      (.ok ⟨s.nextID + 1, c.Name, c.Email, c.IsSuperuser, c.GroupID, c.Password, c.IsOwner⟩,
        { s with
          users := s.users ++
            [⟨s.nextID + 1, c.Name, c.Email, c.IsSuperuser, c.GroupID, c.Password, c.IsOwner⟩]
          nextID := s.nextID + 1 }) := by
  have h1 : s.users.any (fun u => decide (u.Email = c.Email)) = false := by
    simpa [List.any_eq_false] using hno
  have h2 : s.groups.any (fun g => decide (g.ID = c.GroupID)) = true := by
    simpa [List.any_eq_true] using hg
  simp only [userCreate, tick_of_faults_nil s hf, h1, h2]
  simp

/-- On the reference store with no scripted fault, `createDefaults` changes
no user and no group and leaves the fault script empty. -/
theorem createDefaults_frame (s : MemStore) (cs : List Call) (groupID : UUID)
    (hf : s.faults = []) :
    (createDefaults repos ⟨s, cs⟩ groupID).store.users = s.users ∧
      (createDefaults repos ⟨s, cs⟩ groupID).store.groups = s.groups ∧
      (createDefaults repos ⟨s, cs⟩ groupID).store.faults = [] := by
  simp [createDefaults, defaultLabels, defaultLocations, Logged.LabelsCreate,
    Logged.LocationsCreate, invoke, repos, labelCreate, locationCreate, tick, hf]

end MemStore

/-! ## Facts about the handlers -/

/-- The repository calls of `HandleAdminCreateUser`: none when decoding or
hashing fails, and otherwise one `Users.Create`. -/
theorem HandleAdminCreateUser_calls {σ : Type} (ctrl : V1Controller σ)
    (r : Request AdminUserCreate) (w : World σ) :
    (HandleAdminCreateUser ctrl r w).2.calls = w.calls ++
      (match r.decoded with
        | .error _ => []
        | .ok d =>
          match (ctrl.svcUserHashPassword d.Password).2 with
          | some _ => []
          | none =>
            [Call.UsersCreate
              { Name := d.Name
                Email := d.Email
                Password := (ctrl.svcUserHashPassword d.Password).1
                IsSuperuser := d.IsSuperuser
                GroupID := if d.GroupID = uuid.Nil then r.actor.GroupID else d.GroupID
                IsOwner := false }]) := by
  unfold HandleAdminCreateUser
  cases hd : r.decoded with
  | error e => simp
  | ok d =>
    have hp : (if d.GroupID = uuid.Nil then { d with GroupID := r.actor.GroupID }
        else d).Password = d.Password := by split <;> rfl
    have hn : (if d.GroupID = uuid.Nil then { d with GroupID := r.actor.GroupID }
        else d).Name = d.Name := by split <;> rfl
    have he : (if d.GroupID = uuid.Nil then { d with GroupID := r.actor.GroupID }
        else d).Email = d.Email := by split <;> rfl
    have hs : (if d.GroupID = uuid.Nil then { d with GroupID := r.actor.GroupID }
        else d).IsSuperuser = d.IsSuperuser := by split <;> rfl
    have hg : (if d.GroupID = uuid.Nil then { d with GroupID := r.actor.GroupID }
        else d).GroupID = if d.GroupID = uuid.Nil then r.actor.GroupID else d.GroupID := by
      split <;> rfl
    simp only [hp, hn, he, hs, hg]
    rcases hh : ctrl.svcUserHashPassword d.Password with ⟨h, _ | e⟩
    · simp only [Logged.UsersCreate, invoke]
      cases hc : (ctrl.repo.Users.Create w.store
          { Name := d.Name, Email := d.Email, Password := h, IsSuperuser := d.IsSuperuser,
            GroupID := if d.GroupID = uuid.Nil then r.actor.GroupID else d.GroupID,
            IsOwner := false }).1 <;> simp
    · simp

/-- The whole outcome of `HandleAdminCreateUser` on a request that decodes
and whose password hashes: one `Users.Create`, whose result decides the
answer. -/
theorem HandleAdminCreateUser_hashed {σ : Type} (ctrl : V1Controller σ)
    (r : Request AdminUserCreate) (w : World σ) (d : AdminUserCreate)
    (hd : r.decoded = .ok d) (hh : (ctrl.svcUserHashPassword d.Password).2 = none) :
    HandleAdminCreateUser ctrl r w =
      ((match (ctrl.repo.Users.Create w.store
            { Name := d.Name
              Email := d.Email
              Password := (ctrl.svcUserHashPassword d.Password).1
              IsSuperuser := d.IsSuperuser
              GroupID := if d.GroupID = uuid.Nil then r.actor.GroupID else d.GroupID
              IsOwner := false }).1 with
        | .ok user => .ok ⟨http.StatusCreated, .item user⟩
        | .error err => .error ⟨some err, http.StatusInternalServerError⟩),
        ⟨(ctrl.repo.Users.Create w.store
            { Name := d.Name
              Email := d.Email
              Password := (ctrl.svcUserHashPassword d.Password).1
              IsSuperuser := d.IsSuperuser
              GroupID := if d.GroupID = uuid.Nil then r.actor.GroupID else d.GroupID
              IsOwner := false }).2,
          w.calls ++ [.UsersCreate
            { Name := d.Name
              Email := d.Email
              Password := (ctrl.svcUserHashPassword d.Password).1
              IsSuperuser := d.IsSuperuser
              GroupID := if d.GroupID = uuid.Nil then r.actor.GroupID else d.GroupID
              IsOwner := false }]⟩) := by
  unfold HandleAdminCreateUser
  have hp : (if d.GroupID = uuid.Nil then { d with GroupID := r.actor.GroupID }
      else d).Password = d.Password := by split <;> rfl
  have hn : (if d.GroupID = uuid.Nil then { d with GroupID := r.actor.GroupID }
      else d).Name = d.Name := by split <;> rfl
  have he : (if d.GroupID = uuid.Nil then { d with GroupID := r.actor.GroupID }
      else d).Email = d.Email := by split <;> rfl
  have hs : (if d.GroupID = uuid.Nil then { d with GroupID := r.actor.GroupID }
      else d).IsSuperuser = d.IsSuperuser := by split <;> rfl
  have hg : (if d.GroupID = uuid.Nil then { d with GroupID := r.actor.GroupID }
      else d).GroupID = if d.GroupID = uuid.Nil then r.actor.GroupID else d.GroupID := by
    split <;> rfl
  simp only [hd, hp, hn, he, hs, hg]
  rcases hh2 : ctrl.svcUserHashPassword d.Password with ⟨h, _ | e⟩
  · simp only [Logged.UsersCreate, invoke]
    rcases ctrl.repo.Users.Create w.store
        { Name := d.Name, Email := d.Email, Password := h, IsSuperuser := d.IsSuperuser,
          GroupID := if d.GroupID = uuid.Nil then r.actor.GroupID else d.GroupID,
          IsOwner := false } with ⟨_ | _, s⟩ <;> rfl
  · simp [hh2] at hh

/-- The already-superuser branch: when the bootstrap is enabled and fully
configured and the lookup returns a superuser, `setupAdminUser` returns
`nil` and the lookup is its only repository call. -/
theorem setupAdminUser_already_superuser {σ : Type} (R : AllRepos σ)
    (hashPassword : String → String × Option GoError) (env : String → String)
    (w : World σ) (u : UserOut)
    (hon : strings.ToLower (env "HBOX_ADMIN_CREATE") = "true")
    (hname : env "HBOX_ADMIN_NAME" ≠ "") (hemail : env "HBOX_ADMIN_EMAIL" ≠ "")
    (hpw : env "HBOX_ADMIN_PASSWORD" ≠ "")
    (hfound : (R.Users.GetOneEmail w.store (env "HBOX_ADMIN_EMAIL")).1 = .ok u)
    (hsu : u.IsSuperuser = true) :
    setupAdminUser R hashPassword env w =
      (none, ⟨(R.Users.GetOneEmail w.store (env "HBOX_ADMIN_EMAIL")).2,
        w.calls ++ [.UsersGetOneEmail (env "HBOX_ADMIN_EMAIL")]⟩) := by
  simp [setupAdminUser, hon, hname, hemail, hpw, Logged.UsersGetOneEmail, invoke, hfound, hsu]

/-- The first bootstrap run on the reference store: with no scripted fault
and no user with the candidate email, `setupAdminUser` returns `nil` after
creating the group, the user and the defaults. -/
theorem setupAdminUser_creates (hashPassword : String → String × Option GoError)
    (env : String → String) (ms : MemStore) (cs : List Call)
    (hon : strings.ToLower (env "HBOX_ADMIN_CREATE") = "true")
    (hname : env "HBOX_ADMIN_NAME" ≠ "") (hemail : env "HBOX_ADMIN_EMAIL" ≠ "")
    (hpw : env "HBOX_ADMIN_PASSWORD" ≠ "")
    (hf : ms.faults = [])
    (hnone : ∀ u ∈ ms.users, u.Email ≠ env "HBOX_ADMIN_EMAIL") :
    (setupAdminUser MemStore.repos hashPassword env ⟨ms, cs⟩).1 = none ∧
      (setupAdminUser MemStore.repos hashPassword env ⟨ms, cs⟩).2.store.users =
        ms.users ++ [⟨ms.nextID + 2, env "HBOX_ADMIN_NAME", env "HBOX_ADMIN_EMAIL", true,
          ms.nextID + 1, (hashPassword (env "HBOX_ADMIN_PASSWORD")).1, true⟩] ∧
      (setupAdminUser MemStore.repos hashPassword env ⟨ms, cs⟩).2.store.groups =
        ms.groups ++ [⟨ms.nextID + 1, "Admin Group"⟩] ∧
      (setupAdminUser MemStore.repos hashPassword env ⟨ms, cs⟩).2.store.faults = [] := by
  have hlook := MemStore.getOneEmail_absent ms _ hf hnone
  have hgc := MemStore.groupCreate_ok ms "Admin Group" hf
  have huc := MemStore.userCreate_ok
    { ms with groups := ms.groups ++ [⟨ms.nextID + 1, "Admin Group"⟩], nextID := ms.nextID + 1 }
    ⟨env "HBOX_ADMIN_NAME", env "HBOX_ADMIN_EMAIL",
      (hashPassword (env "HBOX_ADMIN_PASSWORD")).1, true, ms.nextID + 1, true⟩
    hf hnone ⟨⟨ms.nextID + 1, "Admin Group"⟩, by simp, rfl⟩
  simp only [setupAdminUser, hon, hname, hemail, hpw, Logged.UsersGetOneEmail,
    Logged.GroupsGroupCreate, Logged.UsersCreate, invoke, MemStore.repos, hlook, hgc, huc,
    ne_eq, not_true_eq_false, if_false, or_self]
  have hfr := MemStore.createDefaults_frame
    { ms with
      users := ms.users ++ [⟨ms.nextID + 1 + 1, env "HBOX_ADMIN_NAME", env "HBOX_ADMIN_EMAIL",
        true, ms.nextID + 1, (hashPassword (env "HBOX_ADMIN_PASSWORD")).1, true⟩]
      groups := ms.groups ++ [⟨ms.nextID + 1, "Admin Group"⟩]
      nextID := ms.nextID + 1 + 1 }
    (cs ++ [.UsersGetOneEmail (env "HBOX_ADMIN_EMAIL")] ++ [.GroupsGroupCreate "Admin Group"] ++
      [.UsersCreate ⟨env "HBOX_ADMIN_NAME", env "HBOX_ADMIN_EMAIL",
        (hashPassword (env "HBOX_ADMIN_PASSWORD")).1, true, ms.nextID + 1, true⟩])
    (ms.nextID + 1) hf
  exact ⟨trivial, hfr.1, hfr.2.1, hfr.2.2⟩

/-! ## The claims -/

/-- C1: for every controller (demo mode or not), every caller (superuser or
not) and every store, `HandleAdminDeleteUser` called with an id that is the
caller's own returns a request error with status 403 and makes no repository
call: the store and the call log are what they were, so `Users.Delete` is
not called. -/
theorem HandleAdminDeleteUser_self_forbidden {σ : Type} (ctrl : V1Controller σ)
    (uuidParse : String → Except GoError UUID) (r : Request Unit) (w : World σ)
    (hne : r.urlParamID ≠ "") (hself : uuidParse r.urlParamID = .ok r.actor.ID) :
    (∃ e, (HandleAdminDeleteUser ctrl uuidParse r w).1 = .error ⟨e, http.StatusForbidden⟩) ∧
      (HandleAdminDeleteUser ctrl uuidParse r w).2.store = w.store ∧
      (HandleAdminDeleteUser ctrl uuidParse r w).2.calls = w.calls := by
  unfold HandleAdminDeleteUser
  by_cases hdemo : ctrl.isDemo = true
  · simp [hdemo]
  · simp [hdemo, hne, hself]

/-- Witness for C1: the superuser `admin` asks to delete its own id. -/
theorem HandleAdminDeleteUser_self_forbidden_witness :
    (∃ e, (HandleAdminDeleteUser Fixture.ctrl Fixture.uuidParse
        ⟨"00000000-0000-0000-0000-000000000001", .ok (), Fixture.admin⟩
        ⟨Fixture.store, []⟩).1 = .error ⟨e, http.StatusForbidden⟩) ∧
      (HandleAdminDeleteUser Fixture.ctrl Fixture.uuidParse
        ⟨"00000000-0000-0000-0000-000000000001", .ok (), Fixture.admin⟩
        ⟨Fixture.store, []⟩).2.store = Fixture.store ∧
      (HandleAdminDeleteUser Fixture.ctrl Fixture.uuidParse
        ⟨"00000000-0000-0000-0000-000000000001", .ok (), Fixture.admin⟩
        ⟨Fixture.store, []⟩).2.calls = [] :=
  HandleAdminDeleteUser_self_forbidden Fixture.ctrl Fixture.uuidParse
    ⟨"00000000-0000-0000-0000-000000000001", .ok (), Fixture.admin⟩ ⟨Fixture.store, []⟩
    (by decide) rfl

/-- C2, at a concrete input: the superuser `admin` (id 1) sends an admin
update for id 1 with `isSuperuser = false`. `HandleAdminUpdateUser` answers
200, and `admin` is no longer a superuser in the store. -/
theorem HandleAdminUpdateUser_self_demotion_accepted :
    HandleAdminUpdateUser Fixture.ctrl Fixture.uuidParse
        ⟨"00000000-0000-0000-0000-000000000001", .ok ⟨"Admin", "admin@x.test", false⟩,
          Fixture.admin⟩ ⟨Fixture.store, []⟩ =
      (.ok ⟨http.StatusOK, .item { Fixture.admin with IsSuperuser := false }⟩,
        ⟨{ Fixture.store with
            users := [{ Fixture.admin with IsSuperuser := false }, Fixture.member] },
          [.UsersUpdate 1 ⟨"Admin", "admin@x.test"⟩, .UsersSetSuperuser 1 false,
            .UsersGetOneID 1]⟩) := by
  rfl

/-- C2, amended: `HandleAdminUpdateUser` does not compare the target id with
the caller. On the reference store with no scripted fault, for every caller
the store holds and every update of the caller's own id with
`isSuperuser = false` to an email no other user has, the handler makes the
calls `Users.Update`, `Users.SetSuperuser(id, false)`, `Users.GetOneID`,
answers 200 with a user of that id that is not a superuser, and no user of
that id is a superuser in the store afterwards. -/
theorem HandleAdminUpdateUser_self_demotion (uuidParse : String → Except GoError UUID)
    (hash : String → String × Option GoError) (demo : Bool)
    (r : Request AdminUserUpdate) (ms : MemStore) (d : AdminUserUpdate)
    (hne : r.urlParamID ≠ "") (hself : uuidParse r.urlParamID = .ok r.actor.ID)
    (hd : r.decoded = .ok d) (hns : d.IsSuperuser = false)
    (hf : ms.faults = []) (hin : ∃ u ∈ ms.users, u.ID = r.actor.ID)
    (huniq : ∀ u ∈ ms.users, u.ID ≠ r.actor.ID → u.Email ≠ d.Email) :
    (∃ u, (HandleAdminUpdateUser ⟨MemStore.repos, hash, demo⟩ uuidParse r ⟨ms, []⟩).1 =
        .ok ⟨http.StatusOK, .item u⟩ ∧ u.ID = r.actor.ID ∧ u.IsSuperuser = false) ∧
      (HandleAdminUpdateUser ⟨MemStore.repos, hash, demo⟩ uuidParse r ⟨ms, []⟩).2.calls =
        [.UsersUpdate r.actor.ID ⟨d.Name, d.Email⟩, .UsersSetSuperuser r.actor.ID false,
          .UsersGetOneID r.actor.ID] ∧
      ∀ v ∈ (HandleAdminUpdateUser ⟨MemStore.repos, hash, demo⟩ uuidParse r
          ⟨ms, []⟩).2.store.users, v.ID = r.actor.ID → v.IsSuperuser = false := by
  have h1 := MemStore.userUpdate_ok ms r.actor.ID ⟨d.Name, d.Email⟩ hf hin huniq
  have hin2 := MemStore.mapUsers_holds ms (MemStore.renamed r.actor.ID ⟨d.Name, d.Email⟩)
    r.actor.ID (MemStore.renamed_ID _ _) hin
  have h2 := MemStore.setSuperuser_ok
    (ms.mapUsers (MemStore.renamed r.actor.ID ⟨d.Name, d.Email⟩)) r.actor.ID false hf hin2
  have hin3 := MemStore.mapUsers_holds _ (MemStore.flagged r.actor.ID false)
    r.actor.ID (MemStore.flagged_ID _ _) hin2
  have hall : ∀ v ∈ ((ms.mapUsers (MemStore.renamed r.actor.ID ⟨d.Name, d.Email⟩)).mapUsers
      (MemStore.flagged r.actor.ID false)).users, v.ID = r.actor.ID → v.IsSuperuser = false := by
    intro v hv hid
    obtain ⟨x, _, rfl⟩ := List.mem_map.mp hv
    have hx : x.ID = r.actor.ID := by simpa using hid
    simp [MemStore.flagged, hx]
  obtain ⟨u, hu, hid, h3⟩ := MemStore.getOneID_ok
    ((ms.mapUsers (MemStore.renamed r.actor.ID ⟨d.Name, d.Email⟩)).mapUsers
      (MemStore.flagged r.actor.ID false)) r.actor.ID hf hin3
  simp only [HandleAdminUpdateUser, Logged.UsersUpdate, Logged.UsersSetSuperuser,
    Logged.UsersGetOneID, invoke, MemStore.repos, hne, hself, hd, hns, if_false, h1, h2, h3]
  exact ⟨⟨u, rfl, hid, hall u hu hid⟩, rfl, hall⟩

/-- Witness for C2, amended: `admin` clears its own superuser flag. -/
theorem HandleAdminUpdateUser_self_demotion_witness :
    (HandleAdminUpdateUser ⟨MemStore.repos, Fixture.hashOK, false⟩ Fixture.uuidParse
        ⟨"00000000-0000-0000-0000-000000000001", .ok ⟨"Admin", "admin@x.test", false⟩,
          Fixture.admin⟩ ⟨Fixture.store, []⟩).2.calls =
      [.UsersUpdate 1 ⟨"Admin", "admin@x.test"⟩, .UsersSetSuperuser 1 false,
        .UsersGetOneID 1] :=
  (HandleAdminUpdateUser_self_demotion Fixture.uuidParse Fixture.hashOK false
    ⟨"00000000-0000-0000-0000-000000000001", .ok ⟨"Admin", "admin@x.test", false⟩,
      Fixture.admin⟩ Fixture.store ⟨"Admin", "admin@x.test", false⟩
    (by decide) rfl rfl rfl rfl (by decide) (by decide)).2.1

/-- C3: on the reference store with no scripted fault, for every enabled
configuration with non-empty name, email and password and every store that
holds no user with that email, two runs of `setupAdminUser` in a row both
return `nil`; the second run makes one repository call, the lookup by
email (no create, update or set-superuser), and leaves the store as the
first run left it; that store holds the users it held plus one superuser
and owner with the candidate email, the only user with that email, and the
groups it held plus one group named "Admin Group", the group of that
user. -/
theorem setupAdminUser_idempotent (hashPassword : String → String × Option GoError)
    (env : String → String) (ms : MemStore)
    (hon : strings.ToLower (env "HBOX_ADMIN_CREATE") = "true")
    (hname : env "HBOX_ADMIN_NAME" ≠ "") (hemail : env "HBOX_ADMIN_EMAIL" ≠ "")
    (hpw : env "HBOX_ADMIN_PASSWORD" ≠ "")
    (hf : ms.faults = [])
    (hnone : ∀ u ∈ ms.users, u.Email ≠ env "HBOX_ADMIN_EMAIL") :
    (setupAdminUser MemStore.repos hashPassword env ⟨ms, []⟩).1 = none ∧
      (setupAdminUser MemStore.repos hashPassword env
        ⟨(setupAdminUser MemStore.repos hashPassword env ⟨ms, []⟩).2.store, []⟩).1 = none ∧
      (setupAdminUser MemStore.repos hashPassword env
        ⟨(setupAdminUser MemStore.repos hashPassword env ⟨ms, []⟩).2.store, []⟩).2.calls =
        [.UsersGetOneEmail (env "HBOX_ADMIN_EMAIL")] ∧
      (setupAdminUser MemStore.repos hashPassword env
        ⟨(setupAdminUser MemStore.repos hashPassword env ⟨ms, []⟩).2.store, []⟩).2.store =
        (setupAdminUser MemStore.repos hashPassword env ⟨ms, []⟩).2.store ∧
      (setupAdminUser MemStore.repos hashPassword env
        ⟨(setupAdminUser MemStore.repos hashPassword env ⟨ms, []⟩).2.store, []⟩).2.store.users =
        ms.users ++ [⟨ms.nextID + 2, env "HBOX_ADMIN_NAME", env "HBOX_ADMIN_EMAIL", true,
          ms.nextID + 1, (hashPassword (env "HBOX_ADMIN_PASSWORD")).1, true⟩] ∧
      (setupAdminUser MemStore.repos hashPassword env
        ⟨(setupAdminUser MemStore.repos hashPassword env ⟨ms, []⟩).2.store, []⟩).2.store.groups =
        ms.groups ++ [⟨ms.nextID + 1, "Admin Group"⟩] ∧
      ((setupAdminUser MemStore.repos hashPassword env
        ⟨(setupAdminUser MemStore.repos hashPassword env ⟨ms, []⟩).2.store, []⟩).2.store.users.filter
          (fun u => u.Email = env "HBOX_ADMIN_EMAIL")).length = 1 := by
  obtain ⟨h1, husers, hgroups, hfaults⟩ :=
    setupAdminUser_creates hashPassword env ms [] hon hname hemail hpw hf hnone
  generalize (setupAdminUser MemStore.repos hashPassword env ⟨ms, []⟩).2.store = s3
    at husers hgroups hfaults ⊢
  obtain ⟨u, hu, he, hget⟩ := MemStore.getOneEmail_present s3 (env "HBOX_ADMIN_EMAIL") hfaults
    ⟨_, by rw [husers]; exact List.mem_append_right _ (List.mem_singleton.mpr rfl), rfl⟩
  have hueq : u = ⟨ms.nextID + 2, env "HBOX_ADMIN_NAME", env "HBOX_ADMIN_EMAIL", true,
      ms.nextID + 1, (hashPassword (env "HBOX_ADMIN_PASSWORD")).1, true⟩ := by
    rw [husers] at hu
    rcases List.mem_append.mp hu with h | h
    · exact absurd he (hnone u h)
    · exact List.mem_singleton.mp h
  have h2 := setupAdminUser_already_superuser MemStore.repos hashPassword env ⟨s3, []⟩ u
    hon hname hemail hpw (by simp [MemStore.repos, hget]) (by rw [hueq])
  have hst : (MemStore.repos.Users.GetOneEmail s3 (env "HBOX_ADMIN_EMAIL")).2 = s3 := by
    simp [MemStore.repos, hget]
  have hfilter : (ms.users.filter (fun u => decide (u.Email = env "HBOX_ADMIN_EMAIL"))) = [] := by
    simpa [List.filter_eq_nil_iff] using hnone
  rw [h2]
  refine ⟨h1, rfl, rfl, hst, ?_, ?_, ?_⟩
  · simp only [hst]; exact husers
  · simp only [hst]; exact hgroups
  · simp only [hst, husers, List.filter_append, hfilter]
    simp

/-- Witness for C3: two bootstrap runs on the empty store. -/
theorem setupAdminUser_idempotent_witness :
    (setupAdminUser MemStore.repos Fixture.hashOK Fixture.env
        ⟨(setupAdminUser MemStore.repos Fixture.hashOK Fixture.env
          ⟨MemStore.empty, []⟩).2.store, []⟩).2.calls =
        [.UsersGetOneEmail "root@x.test"] ∧
      (setupAdminUser MemStore.repos Fixture.hashOK Fixture.env
        ⟨(setupAdminUser MemStore.repos Fixture.hashOK Fixture.env
          ⟨MemStore.empty, []⟩).2.store, []⟩).2.store.users =
        [⟨2, "Root", "root@x.test", true, 1, "#s3cret!", true⟩] :=
  ⟨(setupAdminUser_idempotent Fixture.hashOK Fixture.env MemStore.empty
      rfl (by decide) (by decide) (by decide) rfl (by decide)).2.2.1,
    (setupAdminUser_idempotent Fixture.hashOK Fixture.env MemStore.empty
      rfl (by decide) (by decide) (by decide) rfl (by decide)).2.2.2.2.1⟩

/-- C4: for every id and every update payload, when the store fails the
name/email `Users.Update` step, `HandleAdminUpdateUser` returns that error
(status 500), the one repository call it has made is that `Users.Update`
(`Users.SetSuperuser` is not called), and the store is as the failed update
left it; on the reference store, where a failed update changes no record,
every user, and so every superuser flag, is what it was. -/
theorem HandleAdminUpdateUser_update_failure {σ : Type} (ctrl : V1Controller σ)
    (uuidParse : String → Except GoError UUID) (r : Request AdminUserUpdate) (w : World σ)
    (id : UUID) (d : AdminUserUpdate) (err : GoError)
    (hne : r.urlParamID ≠ "") (hid : uuidParse r.urlParamID = .ok id)
    (hd : r.decoded = .ok d)
    (hfail : (ctrl.repo.Users.Update w.store id ⟨d.Name, d.Email⟩).1 = some err) :
    HandleAdminUpdateUser ctrl uuidParse r w =
        (.error ⟨some err, http.StatusInternalServerError⟩,
          ⟨(ctrl.repo.Users.Update w.store id ⟨d.Name, d.Email⟩).2,
            w.calls ++ [.UsersUpdate id ⟨d.Name, d.Email⟩]⟩) ∧
      (∀ v, Call.UsersSetSuperuser id v ∉
        (HandleAdminUpdateUser ctrl uuidParse r ⟨w.store, []⟩).2.calls) ∧
      (∀ (ms : MemStore) (hash : String → String × Option GoError) (demo : Bool),
        (MemStore.userUpdate ms id ⟨d.Name, d.Email⟩).1 ≠ none →
        (HandleAdminUpdateUser ⟨MemStore.repos, hash, demo⟩ uuidParse r
          ⟨ms, []⟩).2.store.users = ms.users) := by
  refine ⟨?_, ?_, ?_⟩
  · simp [HandleAdminUpdateUser, Logged.UsersUpdate, invoke, hne, hid, hd, hfail]
  · simp [HandleAdminUpdateUser, Logged.UsersUpdate, invoke, hne, hid, hd, hfail]
  · intro ms hash demo hms
    obtain ⟨e, he⟩ := Option.ne_none_iff_exists'.mp hms
    simp only [HandleAdminUpdateUser, Logged.UsersUpdate, invoke, hne, hid, hd,
      MemStore.repos, he, if_false]
    exact MemStore.userUpdate_failure_users ms id _ hms

/-- Witness for C4: an update of `member` to the email of `admin`, which the reference store refuses. -/
theorem HandleAdminUpdateUser_update_failure_witness :
    HandleAdminUpdateUser Fixture.ctrl Fixture.uuidParse
        ⟨"00000000-0000-0000-0000-000000000002", .ok ⟨"Member", "admin@x.test", true⟩,
          Fixture.admin⟩ ⟨Fixture.store, []⟩ =
      (.error ⟨some (.other "constraint failed: email is not unique"),
          http.StatusInternalServerError⟩,
        ⟨Fixture.store, [.UsersUpdate 2 ⟨"Member", "admin@x.test"⟩]⟩) :=
  (HandleAdminUpdateUser_update_failure Fixture.ctrl Fixture.uuidParse
    ⟨"00000000-0000-0000-0000-000000000002", .ok ⟨"Member", "admin@x.test", true⟩,
      Fixture.admin⟩ ⟨Fixture.store, []⟩ 2 ⟨"Member", "admin@x.test", true⟩
    (.other "constraint failed: email is not unique") (by decide) rfl rfl rfl).1

/-- C5: every admin create request that decodes and whose password hashes
reaches the store: `HandleAdminCreateUser` makes exactly one repository
call, `Users.Create`, and the record it passes has `IsOwner = false`, the
caller's `GroupID` when the payload's `GroupID` is `uuid.Nil` (an absent
`groupID` decodes to `uuid.Nil`) and the payload's `GroupID` otherwise, the
payload's name, email and superuser flag, and the hashed password; the
store is as that call left it. Conversely, whenever the handler calls
`Users.Create`, the request is such a request and the record is that one. -/
theorem HandleAdminCreateUser_record {σ : Type} (ctrl : V1Controller σ)
    (r : Request AdminUserCreate) (w : World σ) (d : AdminUserCreate)
    (hd : r.decoded = .ok d) (hh : (ctrl.svcUserHashPassword d.Password).2 = none) :
    (HandleAdminCreateUser ctrl r w).2.calls = w.calls ++
        [.UsersCreate
          { Name := d.Name
            Email := d.Email
            Password := (ctrl.svcUserHashPassword d.Password).1
            IsSuperuser := d.IsSuperuser
            GroupID := if d.GroupID = uuid.Nil then r.actor.GroupID else d.GroupID
            IsOwner := false }] ∧
      (HandleAdminCreateUser ctrl r w).2.store =
        (ctrl.repo.Users.Create w.store
          { Name := d.Name
            Email := d.Email
            Password := (ctrl.svcUserHashPassword d.Password).1
            IsSuperuser := d.IsSuperuser
            GroupID := if d.GroupID = uuid.Nil then r.actor.GroupID else d.GroupID
            IsOwner := false }).2 ∧
      ∀ (q : Request AdminUserCreate) (s : σ) (c : UserCreate),
        Call.UsersCreate c ∈ (HandleAdminCreateUser ctrl q ⟨s, []⟩).2.calls →
        ∃ p : AdminUserCreate, q.decoded = .ok p ∧
          (ctrl.svcUserHashPassword p.Password).2 = none ∧
          c =
            { Name := p.Name
              Email := p.Email
              Password := (ctrl.svcUserHashPassword p.Password).1
              IsSuperuser := p.IsSuperuser
              GroupID := if p.GroupID = uuid.Nil then q.actor.GroupID else p.GroupID
              IsOwner := false } := by
  refine ⟨?_, ?_, ?_⟩
  · rw [HandleAdminCreateUser_hashed ctrl r w d hd hh]
  · rw [HandleAdminCreateUser_hashed ctrl r w d hd hh]
  · intro q s c hcall
    rw [HandleAdminCreateUser_calls] at hcall
    cases hq : q.decoded with
    | error e => simp [hq] at hcall
    | ok p =>
      refine ⟨p, rfl, ?_⟩
      simp only [hq, List.nil_append] at hcall
      cases hp : (ctrl.svcUserHashPassword p.Password).2 with
      | some e => simp [hp] at hcall
      | none =>
        simp only [hp, List.mem_singleton, Call.UsersCreate.injEq] at hcall
        exact ⟨rfl, hcall⟩

/-- Witness for C5: a create request without a group, sent by `admin`, whose
group is 10. -/
theorem HandleAdminCreateUser_record_witness :
    (HandleAdminCreateUser Fixture.ctrl
        ⟨"", .ok ⟨"Ann", "ann@x.test", "pw", false, uuid.Nil⟩, Fixture.admin⟩
        ⟨Fixture.store, []⟩).2.calls =
      [.UsersCreate ⟨"Ann", "ann@x.test", "#pw", false, 10, false⟩] :=
  (HandleAdminCreateUser_record Fixture.ctrl
    ⟨"", .ok ⟨"Ann", "ann@x.test", "pw", false, uuid.Nil⟩, Fixture.admin⟩
    ⟨Fixture.store, []⟩ ⟨"Ann", "ann@x.test", "pw", false, uuid.Nil⟩ rfl rfl).1

/-- C6, at a concrete input: with the bootstrap enabled for `root@x.test`,
an empty store and a hasher that fails on every password, `setupAdminUser`
returns `nil`, and the store holds the user, created with the string the
failed hasher returned as its password. The error of `hasher.HashPassword`
is dropped. -/
theorem setupAdminUser_hash_failure_creates_user :
    (setupAdminUser MemStore.repos Fixture.hashFails Fixture.env
        ⟨MemStore.empty, []⟩).1 = none ∧
      (setupAdminUser MemStore.repos Fixture.hashFails Fixture.env
        ⟨MemStore.empty, []⟩).2.store.users =
        [⟨2, "Root", "root@x.test", true, 1, "", true⟩] ∧
      (setupAdminUser MemStore.repos Fixture.hashFails Fixture.env
        ⟨MemStore.empty, []⟩).2.calls.take 3 =
        [.UsersGetOneEmail "root@x.test", .GroupsGroupCreate "Admin Group",
          .UsersCreate ⟨"Root", "root@x.test", "", true, 1, true⟩] := by
  decide

/-- C7, at a concrete input: the store is empty and its first call, the
lookup by email, fails with a store error that is not not-found.
`setupAdminUser` still returns `nil`, having created the group and the
user. -/
theorem setupAdminUser_lookup_failure_creates :
    (MemStore.getOneEmail { MemStore.empty with faults := [true] } "root@x.test").1 =
        .error (.other "store failure") ∧
      (setupAdminUser MemStore.repos Fixture.hashOK Fixture.env
        ⟨{ MemStore.empty with faults := [true] }, []⟩).1 = none ∧
      (setupAdminUser MemStore.repos Fixture.hashOK Fixture.env
        ⟨{ MemStore.empty with faults := [true] }, []⟩).2.store.groups =
        [⟨1, "Admin Group"⟩] ∧
      (setupAdminUser MemStore.repos Fixture.hashOK Fixture.env
        ⟨{ MemStore.empty with faults := [true] }, []⟩).2.store.users =
        [⟨2, "Root", "root@x.test", true, 1, "#s3cret!", true⟩] := by
  refine ⟨rfl, ?_, ?_, ?_⟩ <;> decide

/-- C7, amended: when the bootstrap is enabled and fully configured and the
lookup of the candidate email fails with any error, not-found or not,
`setupAdminUser` takes the create path. It calls `Groups.GroupCreate` with
"Admin Group"; if that fails it returns the error, and no `Users.Create` is
called; otherwise it calls `Users.Create` for a superuser and owner of the
new group, returns the error if that fails, and otherwise seeds the
defaults and returns `nil`. -/
theorem setupAdminUser_lookup_error_create_path {σ : Type} (R : AllRepos σ)
    (hashPassword : String → String × Option GoError) (env : String → String)
    (w : World σ) (e : GoError)
    (hon : strings.ToLower (env "HBOX_ADMIN_CREATE") = "true")
    (hname : env "HBOX_ADMIN_NAME" ≠ "") (hemail : env "HBOX_ADMIN_EMAIL" ≠ "")
    (hpw : env "HBOX_ADMIN_PASSWORD" ≠ "")
    (hlookup : (R.Users.GetOneEmail w.store (env "HBOX_ADMIN_EMAIL")).1 = .error e) :
    (∀ err, (R.Groups.GroupCreate
          (R.Users.GetOneEmail w.store (env "HBOX_ADMIN_EMAIL")).2 "Admin Group").1 =
          .error err →
        setupAdminUser R hashPassword env w =
          (some err,
            ⟨(R.Groups.GroupCreate
                (R.Users.GetOneEmail w.store (env "HBOX_ADMIN_EMAIL")).2 "Admin Group").2,
              w.calls ++ [.UsersGetOneEmail (env "HBOX_ADMIN_EMAIL"),
                .GroupsGroupCreate "Admin Group"]⟩)) ∧
      (∀ group, (R.Groups.GroupCreate
          (R.Users.GetOneEmail w.store (env "HBOX_ADMIN_EMAIL")).2 "Admin Group").1 =
          .ok group →
        setupAdminUser R hashPassword env w =
          match R.Users.Create
              (R.Groups.GroupCreate
                (R.Users.GetOneEmail w.store (env "HBOX_ADMIN_EMAIL")).2 "Admin Group").2
              ⟨env "HBOX_ADMIN_NAME", env "HBOX_ADMIN_EMAIL",
                (hashPassword (env "HBOX_ADMIN_PASSWORD")).1, true, group.ID, true⟩ with
          | (.error err, s) =>
            (some err,
              ⟨s, w.calls ++ [.UsersGetOneEmail (env "HBOX_ADMIN_EMAIL"),
                .GroupsGroupCreate "Admin Group",
                .UsersCreate ⟨env "HBOX_ADMIN_NAME", env "HBOX_ADMIN_EMAIL",
                  (hashPassword (env "HBOX_ADMIN_PASSWORD")).1, true, group.ID, true⟩]⟩)
          | (.ok user, s) =>
            (none,
              createDefaults R
                ⟨s, w.calls ++ [.UsersGetOneEmail (env "HBOX_ADMIN_EMAIL"),
                  .GroupsGroupCreate "Admin Group",
                  .UsersCreate ⟨env "HBOX_ADMIN_NAME", env "HBOX_ADMIN_EMAIL",
                    (hashPassword (env "HBOX_ADMIN_PASSWORD")).1, true, group.ID, true⟩]⟩
                user.GroupID)) := by
  constructor
  · intro err hg
    simp [setupAdminUser, hon, hname, hemail, hpw, Logged.UsersGetOneEmail,
      Logged.GroupsGroupCreate, invoke, hlookup, hg]
  · intro group hg
    simp only [setupAdminUser, hon, hname, hemail, hpw, Logged.UsersGetOneEmail,
      Logged.GroupsGroupCreate, Logged.UsersCreate, invoke, hlookup, hg, ne_eq,
      not_true_eq_false, if_false, or_self, List.append_assoc, List.singleton_append,
      List.cons_append, List.nil_append]
    rcases R.Users.Create
        (R.Groups.GroupCreate
          (R.Users.GetOneEmail w.store (env "HBOX_ADMIN_EMAIL")).2 "Admin Group").2
        ⟨env "HBOX_ADMIN_NAME", env "HBOX_ADMIN_EMAIL",
          (hashPassword (env "HBOX_ADMIN_PASSWORD")).1, true, group.ID, true⟩ with ⟨_ | _, s⟩ <;> rfl

/-- Witness for C7, amended: the lookup fails with a store error on an empty store. -/
theorem setupAdminUser_lookup_error_create_path_witness :
    (setupAdminUser MemStore.repos Fixture.hashOK Fixture.env
      ⟨{ MemStore.empty with faults := [true] }, []⟩).1 = none := by
  rw [(setupAdminUser_lookup_error_create_path MemStore.repos Fixture.hashOK Fixture.env
    ⟨{ MemStore.empty with faults := [true] }, []⟩ (.other "store failure")
    rfl (by decide) (by decide) (by decide) rfl).2 ⟨1, "Admin Group"⟩ rfl]
  rfl

/-- C8: when the bootstrap is enabled and fully configured and the lookup
returns a user that is not a superuser, `setupAdminUser` calls `Users.Update`
on that user's id with the candidate name and email. If the update fails it
returns that error and `Users.SetSuperuser` is not called. Otherwise it
calls `Users.SetSuperuser(id, true)` and returns its result. In both cases
the lookup and these are its only repository calls: no group and no user is
created. On the reference store with no scripted fault and no other user
with the candidate email, it returns `nil`, the users of that id get the
candidate name and email and the superuser flag, every other user and every
group is what it was, and so the numbers of users and groups are
unchanged. -/
theorem setupAdminUser_promotes {σ : Type} (R : AllRepos σ)
    (hashPassword : String → String × Option GoError) (env : String → String)
    (w : World σ) (u : UserOut)
    (hon : strings.ToLower (env "HBOX_ADMIN_CREATE") = "true")
    (hname : env "HBOX_ADMIN_NAME" ≠ "") (hemail : env "HBOX_ADMIN_EMAIL" ≠ "")
    (hpw : env "HBOX_ADMIN_PASSWORD" ≠ "")
    (hfound : (R.Users.GetOneEmail w.store (env "HBOX_ADMIN_EMAIL")).1 = .ok u)
    (hns : u.IsSuperuser = false) :
    (∀ err, (R.Users.Update (R.Users.GetOneEmail w.store (env "HBOX_ADMIN_EMAIL")).2 u.ID
          ⟨env "HBOX_ADMIN_NAME", env "HBOX_ADMIN_EMAIL"⟩).1 = some err →
        setupAdminUser R hashPassword env w =
          (some err,
            ⟨(R.Users.Update (R.Users.GetOneEmail w.store (env "HBOX_ADMIN_EMAIL")).2 u.ID
                ⟨env "HBOX_ADMIN_NAME", env "HBOX_ADMIN_EMAIL"⟩).2,
              w.calls ++ [.UsersGetOneEmail (env "HBOX_ADMIN_EMAIL"),
                .UsersUpdate u.ID ⟨env "HBOX_ADMIN_NAME", env "HBOX_ADMIN_EMAIL"⟩]⟩)) ∧
      ((R.Users.Update (R.Users.GetOneEmail w.store (env "HBOX_ADMIN_EMAIL")).2 u.ID
          ⟨env "HBOX_ADMIN_NAME", env "HBOX_ADMIN_EMAIL"⟩).1 = none →
        setupAdminUser R hashPassword env w =
          ((R.Users.SetSuperuser
              (R.Users.Update (R.Users.GetOneEmail w.store (env "HBOX_ADMIN_EMAIL")).2 u.ID
                ⟨env "HBOX_ADMIN_NAME", env "HBOX_ADMIN_EMAIL"⟩).2 u.ID true).1,
            ⟨(R.Users.SetSuperuser
                (R.Users.Update (R.Users.GetOneEmail w.store (env "HBOX_ADMIN_EMAIL")).2 u.ID
                  ⟨env "HBOX_ADMIN_NAME", env "HBOX_ADMIN_EMAIL"⟩).2 u.ID true).2,
              w.calls ++ [.UsersGetOneEmail (env "HBOX_ADMIN_EMAIL"),
                .UsersUpdate u.ID ⟨env "HBOX_ADMIN_NAME", env "HBOX_ADMIN_EMAIL"⟩,
                .UsersSetSuperuser u.ID true]⟩)) ∧
      (∀ (ms : MemStore) (cs : List Call) (v : UserOut), ms.faults = [] →
        (MemStore.getOneEmail ms (env "HBOX_ADMIN_EMAIL")).1 = .ok v →
        v.IsSuperuser = false →
        (∀ x ∈ ms.users, x.ID ≠ v.ID → x.Email ≠ env "HBOX_ADMIN_EMAIL") →
        (setupAdminUser MemStore.repos hashPassword env ⟨ms, cs⟩).1 = none ∧
          (setupAdminUser MemStore.repos hashPassword env ⟨ms, cs⟩).2.store.users =
            ms.users.map (fun x =>
              if x.ID = v.ID then
                { x with
                  Name := env "HBOX_ADMIN_NAME"
                  Email := env "HBOX_ADMIN_EMAIL"
                  IsSuperuser := true }
              else x) ∧
          (setupAdminUser MemStore.repos hashPassword env ⟨ms, cs⟩).2.store.users.length =
            ms.users.length ∧
          (setupAdminUser MemStore.repos hashPassword env ⟨ms, cs⟩).2.store.groups =
            ms.groups) := by
  refine ⟨?_, ?_, ?_⟩
  · intro err hup
    simp [setupAdminUser, hon, hname, hemail, hpw, Logged.UsersGetOneEmail,
      Logged.UsersUpdate, invoke, hfound, hns, hup]
  · intro hup
    simp only [setupAdminUser, hon, hname, hemail, hpw, Logged.UsersGetOneEmail,
      Logged.UsersUpdate, Logged.UsersSetSuperuser, invoke, hfound, hns, hup, ne_eq,
      not_true_eq_false, if_false, or_self, Bool.not_false, if_true, List.append_assoc,
      List.singleton_append, List.cons_append, List.nil_append]
    rcases R.Users.SetSuperuser
        (R.Users.Update (R.Users.GetOneEmail w.store (env "HBOX_ADMIN_EMAIL")).2 u.ID
          ⟨env "HBOX_ADMIN_NAME", env "HBOX_ADMIN_EMAIL"⟩).2 u.ID true with ⟨_ | _, s⟩ <;> rfl
  · intro ms cs v hf hget hvns huniq
    obtain ⟨hmem, hst⟩ : (∃ x ∈ ms.users, x.ID = v.ID) ∧
        MemStore.getOneEmail ms (env "HBOX_ADMIN_EMAIL") = (.ok v, ms) := by
      unfold MemStore.getOneEmail at hget ⊢
      simp only [MemStore.tick_of_faults_nil ms hf] at hget ⊢
      cases hfind : ms.users.find? (fun x => decide (x.Email = env "HBOX_ADMIN_EMAIL")) with
      | none => simp [hfind] at hget
      | some x =>
        simp [hfind] at hget
        subst hget
        exact ⟨⟨x, List.mem_of_find?_eq_some hfind, rfl⟩, by simp⟩
    have h1 := MemStore.userUpdate_ok ms v.ID ⟨env "HBOX_ADMIN_NAME", env "HBOX_ADMIN_EMAIL"⟩
      hf hmem huniq
    have hmem2 := MemStore.mapUsers_holds ms
      (MemStore.renamed v.ID ⟨env "HBOX_ADMIN_NAME", env "HBOX_ADMIN_EMAIL"⟩)
      v.ID (MemStore.renamed_ID _ _) hmem
    have h2 := MemStore.setSuperuser_ok
      (ms.mapUsers (MemStore.renamed v.ID ⟨env "HBOX_ADMIN_NAME", env "HBOX_ADMIN_EMAIL"⟩))
      v.ID true hf hmem2
    simp only [setupAdminUser, hon, hname, hemail, hpw, Logged.UsersGetOneEmail,
      Logged.UsersUpdate, Logged.UsersSetSuperuser, invoke, MemStore.repos, hst, hvns, h1, h2,
      ne_eq, not_true_eq_false, if_false, or_self, Bool.not_false, if_true]
    refine ⟨trivial, ?_, ?_, rfl⟩
    · simp only [MemStore.mapUsers_users, List.map_map]
      apply List.map_congr_left
      intro x _
      by_cases hx : x.ID = v.ID <;> simp [MemStore.renamed, MemStore.flagged, hx]
    · simp

/-- Witness for C8: `member` has the candidate email; in the second store the update is scripted to fail. -/
theorem setupAdminUser_promotes_witness :
    setupAdminUser MemStore.repos Fixture.hashOK Fixture.env ⟨Fixture.store, []⟩ =
        (none,
          ⟨{ Fixture.store with
              users := [Fixture.admin,
                ⟨2, "Root", "root@x.test", true, 10, "#pw2", false⟩] },
            [.UsersGetOneEmail "root@x.test", .UsersUpdate 2 ⟨"Root", "root@x.test"⟩,
              .UsersSetSuperuser 2 true]⟩) ∧
      setupAdminUser MemStore.repos Fixture.hashOK Fixture.env
          ⟨{ Fixture.store with faults := [false, true] }, []⟩ =
        (some (.other "store failure"),
          ⟨Fixture.store,
            [.UsersGetOneEmail "root@x.test", .UsersUpdate 2 ⟨"Root", "root@x.test"⟩]⟩) :=
  ⟨(setupAdminUser_promotes MemStore.repos Fixture.hashOK Fixture.env ⟨Fixture.store, []⟩
      Fixture.member rfl (by decide) (by decide) (by decide) rfl rfl).2.1 rfl,
    (setupAdminUser_promotes MemStore.repos Fixture.hashOK Fixture.env
      ⟨{ Fixture.store with faults := [false, true] }, []⟩
      Fixture.member rfl (by decide) (by decide) (by decide) rfl rfl).1
      (.other "store failure") rfl⟩

/-- C9: for every group id and every store, whatever each call returns,
`createDefaults` makes exactly these repository calls, in this order: one
`Labels.Create` for each of the five default labels, then one
`Locations.Create` for each of the four default locations, all with the
given group id. On the reference store with no scripted fault the group
gains exactly five labels and four locations. -/
theorem createDefaults_attempts_all {σ : Type} (R : AllRepos σ) (w : World σ)
    (groupID : UUID) :
    (createDefaults R w groupID).calls =
        w.calls ++ defaultLabels.map (Call.LabelsCreate groupID) ++
          defaultLocations.map (Call.LocationsCreate groupID) ∧
      defaultLabels.length = 5 ∧ defaultLocations.length = 4 ∧
      ∀ (ms : MemStore) (cs : List Call), ms.faults = [] →
        ((createDefaults MemStore.repos ⟨ms, cs⟩ groupID).store.labels.filter
            (fun l => l.GroupID = groupID)).length =
          (ms.labels.filter (fun l => l.GroupID = groupID)).length + 5 ∧
        ((createDefaults MemStore.repos ⟨ms, cs⟩ groupID).store.locations.filter
            (fun l => l.GroupID = groupID)).length =
          (ms.locations.filter (fun l => l.GroupID = groupID)).length + 4 := by
  refine ⟨?_, rfl, rfl, ?_⟩
  · simp [createDefaults, defaultLabels, defaultLocations, Logged.LabelsCreate,
      Logged.LocationsCreate, invoke]
  · intro ms cs hf
    simp [createDefaults, defaultLabels, defaultLocations, Logged.LabelsCreate,
      Logged.LocationsCreate, invoke, MemStore.repos, MemStore.labelCreate,
      MemStore.locationCreate, MemStore.tick, hf]

/-- C10, at a concrete input: a create request with an empty name is not
rejected. `HandleAdminCreateUser` hashes the password, calls `Users.Create`
with the empty name, and answers 201. -/
theorem HandleAdminCreateUser_empty_name_reaches_store :
    HandleAdminCreateUser Fixture.ctrl
        ⟨"", .ok ⟨"", "ann@x.test", "pw", false, uuid.Nil⟩, Fixture.admin⟩
        ⟨Fixture.store, []⟩ =
      (.ok ⟨http.StatusCreated, .item ⟨11, "", "ann@x.test", false, 10, "#pw", false⟩⟩,
        ⟨{ Fixture.store with
            users := Fixture.store.users ++ [⟨11, "", "ann@x.test", false, 10, "#pw", false⟩]
            nextID := 11 },
          [.UsersCreate ⟨"", "ann@x.test", "#pw", false, 10, false⟩]⟩) := by
  rfl

/-- C10, amended: `HandleAdminCreateUser` makes no emptiness check. For
every decoded create request in which name, email or password is empty and
whose password hashes, it makes exactly one repository call, `Users.Create`
with the fields as given, and its answer is the store's: 201 with the user
`Users.Create` returned, or 500 with the error `Users.Create` returned,
never a client error. The requests it rejects before any repository call
are those that fail to decode, answered 400 with the decoding error, and
those whose password fails to hash, answered 500 with the hashing error. -/
theorem HandleAdminCreateUser_empty_fields_reach_store {σ : Type} (ctrl : V1Controller σ)
    (r : Request AdminUserCreate) (w : World σ) (d : AdminUserCreate)
    (hd : r.decoded = .ok d)
    (_hempty : d.Name = "" ∨ d.Email = "" ∨ d.Password = "")
    (hh : (ctrl.svcUserHashPassword d.Password).2 = none) :
    HandleAdminCreateUser ctrl r w =
        ((match (ctrl.repo.Users.Create w.store
              { Name := d.Name
                Email := d.Email
                Password := (ctrl.svcUserHashPassword d.Password).1
                IsSuperuser := d.IsSuperuser
                GroupID := if d.GroupID = uuid.Nil then r.actor.GroupID else d.GroupID
                IsOwner := false }).1 with
          | .ok user => .ok ⟨http.StatusCreated, .item user⟩
          | .error err => .error ⟨some err, http.StatusInternalServerError⟩),
          ⟨(ctrl.repo.Users.Create w.store
              { Name := d.Name
                Email := d.Email
                Password := (ctrl.svcUserHashPassword d.Password).1
                IsSuperuser := d.IsSuperuser
                GroupID := if d.GroupID = uuid.Nil then r.actor.GroupID else d.GroupID
                IsOwner := false }).2,
            w.calls ++ [.UsersCreate
              { Name := d.Name
                Email := d.Email
                Password := (ctrl.svcUserHashPassword d.Password).1
                IsSuperuser := d.IsSuperuser
                GroupID := if d.GroupID = uuid.Nil then r.actor.GroupID else d.GroupID
                IsOwner := false }]⟩) ∧
      (∀ (q : Request AdminUserCreate) (e : GoError), q.decoded = .error e →
        HandleAdminCreateUser ctrl q w = (.error ⟨some e, http.StatusBadRequest⟩, w)) ∧
      (∀ (q : Request AdminUserCreate) (p : AdminUserCreate) (e : GoError),
        q.decoded = .ok p → (ctrl.svcUserHashPassword p.Password).2 = some e →
        HandleAdminCreateUser ctrl q w =
          (.error ⟨some e, http.StatusInternalServerError⟩, w)) ∧
      (∀ (q : Request AdminUserCreate),
        (HandleAdminCreateUser ctrl q w).2.calls = w.calls →
        (∃ e, q.decoded = .error e) ∨
          ∃ p e, q.decoded = .ok p ∧ (ctrl.svcUserHashPassword p.Password).2 = some e) := by
  refine ⟨HandleAdminCreateUser_hashed ctrl r w d hd hh, ?_, ?_, ?_⟩
  · intro q e hq
    simp [HandleAdminCreateUser, hq]
  · intro q p e hq hp
    have hpw : (if p.GroupID = uuid.Nil then { p with GroupID := q.actor.GroupID }
        else p).Password = p.Password := by split <;> rfl
    unfold HandleAdminCreateUser
    simp only [hq, hpw]
    rcases hh2 : ctrl.svcUserHashPassword p.Password with ⟨h, _ | e2⟩
    · simp [hh2] at hp
    · simp only [hh2, Option.some.injEq] at hp
      subst hp
      rfl
  · intro q hcalls
    rw [HandleAdminCreateUser_calls] at hcalls
    cases hq : q.decoded with
    | error e => exact Or.inl ⟨e, rfl⟩
    | ok p =>
      cases hp : (ctrl.svcUserHashPassword p.Password).2 with
      | some e => exact Or.inr ⟨p, e, rfl, hp⟩
      | none => simp [hq, hp] at hcalls

/-- Witness for C10, amended: a create request with empty name, email and
password reaches the store and is answered 201 with the user the reference
store created. -/
theorem HandleAdminCreateUser_empty_fields_reach_store_witness :
    HandleAdminCreateUser Fixture.ctrl
        ⟨"", .ok ⟨"", "", "", true, 10⟩, Fixture.admin⟩ ⟨Fixture.store, []⟩ =
      (.ok ⟨http.StatusCreated, .item ⟨11, "", "", true, 10, "#", false⟩⟩,
        ⟨{ Fixture.store with
            users := Fixture.store.users ++ [⟨11, "", "", true, 10, "#", false⟩]
            nextID := 11 },
          [.UsersCreate ⟨"", "", "#", true, 10, false⟩]⟩) :=
  (HandleAdminCreateUser_empty_fields_reach_store Fixture.ctrl
    ⟨"", .ok ⟨"", "", "", true, 10⟩, Fixture.admin⟩ ⟨Fixture.store, []⟩ ⟨"", "", "", true, 10⟩
    rfl (Or.inl rfl) rfl).1

end Homebox
